import Mathlib

/-!
Shallow embedding of the chat relay endpoint (src/app/api/chat/route.ts)
and of the floating chat widget (src/components/ui/FloatingChat.tsx).

The relay endpoint `POST` parses the request body, validates `query` and
`subject` with JS truthiness, issues one fetch to the provider, and maps
every failure to a generic 500 response inside a single catch-all.
The widget keeps `query`, `subject`, `response`, `loading` state; its
submit handler is guarded by a trimmed-query check, and every failure of
the relay call ends in a fixed user-facing error string.
-/

/-- Parsed JSON body of a relay request (route.ts line 5): the two fields the
route destructures. A field absent from the JSON is `none`. -/
structure ChatBody where
  query : Option String
  subject : Option String
deriving DecidableEq

/-- JS truthiness of an optional string field: `undefined` and the empty
string are falsy, every other string is truthy (route.ts line 7 tests
`!query || !subject`). -/
def truthy : Option String → Bool
  | none => false
  | some s => !(s == "")

/-- One element of `content.parts` in the provider response JSON. -/
structure GeminiPart where
  text : Option String
deriving DecidableEq

/-- The `content` object of a provider candidate. -/
structure GeminiContent where
  parts : Option (List GeminiPart)
deriving DecidableEq

/-- One element of `candidates` in the provider response JSON. -/
structure GeminiCandidate where
  content : Option GeminiContent
deriving DecidableEq

/-- Provider response JSON, restricted to the fields the route reads
(route.ts line 56). -/
structure GeminiData where
  candidates : Option (List GeminiCandidate)
deriving DecidableEq

/-- The `error` object of a provider error body (route.ts line 52 reads
`errorData.error?.message`). -/
structure ErrInfo where
  message : Option String
deriving DecidableEq

/-- Provider error body read when the provider status is not ok. -/
structure ErrBody where
  error : Option ErrInfo
deriving DecidableEq

/-- The optional chain `data.candidates?.[0]?.content?.parts?.[0]?.text`
of route.ts line 56: `none` as soon as any link is missing. -/
def extractText (d : GeminiData) : Option String :=
  match d.candidates with
  | none => none
  | some cs =>
    match cs.head? with
    | none => none
    | some c =>
      match c.content with
      | none => none
      | some ct =>
        match ct.parts with
        | none => none
        | some ps =>
          match ps.head? with
          | none => none
          | some p => p.text

/-- The full right-hand side of route.ts line 56: the extracted text, or the
fallback when the extracted value is falsy (`undefined` or the empty
string, the only falsy strings in JS). -/
def textOrFallback (d : GeminiData) : String :=
  match extractText d with
  | none => "No response received"
  | some t => if t = "" then "No response received" else t

/-- The detail string interpolated into the Error thrown at route.ts
line 52: `errorData.error?.message || response.statusText`. -/
def googleDetail (statusText : String) (eb : ErrBody) : String :=
  match eb.error with
  | none => statusText
  | some info =>
    match info.message with
    | none => statusText
    | some m => if m = "" then statusText else m

/-- Outcome of the single outbound `fetch` to the provider (route.ts
lines 41-48) together with the body reads that follow it: the fetch threw,
or the response was not ok (line 50, carrying `statusText` and the result
of parsing the error body at line 51), or the response was ok (carrying
the result of parsing the data body at line 55). A parse `Except.error`
carries the message of the exception `response.json()` threw. -/
inductive ProviderOutcome where
  | thrown (msg : String)
  | notOk (statusText : String) (errBody : Except String ErrBody)
  | okRes (body : Except String GeminiData)

/-- Body of an HTTP response of the relay endpoint: either the success
shape with `success: true` and a `response` string, or the failure shape
with `success: false` and an `error` string. -/
inductive ApiBody where
  | ok (response : String)
  | err (error : String)
deriving DecidableEq

/-- An HTTP response of the relay endpoint: status code and JSON body. -/
structure ApiResponse where
  status : Nat
  body : ApiBody
deriving DecidableEq

/-- The generic 500 response built in the catch block of route.ts
lines 66-72. -/
def err500 : ApiResponse :=
  { status := 500, body := ApiBody.err "Failed to get response from AI assistant" }

/-- Observable result of one invocation of the route handler: the HTTP
response, the number of outbound provider calls performed, and the
`console.error` log lines emitted. -/
structure RelayRun where
  response : ApiResponse
  calls : Nat
  log : List String
deriving DecidableEq

/-- The part of the route after validation passed (route.ts lines 41-72):
the one fetch runs (`calls := 1` in every branch below), a thrown fetch, a
non-ok status (which rethrows at line 52) and a data-parse exception all
land in the catch block, which logs the error and returns the generic 500
response; an ok, parseable response returns 200 with `textOrFallback`. -/
def handleProvider (p : ProviderOutcome) : RelayRun :=
  match p with
  | ProviderOutcome.thrown m =>
    { response := err500, calls := 1, log := ["Chat API Error: " ++ m] }
  | ProviderOutcome.notOk _ (Except.error e) =>
    { response := err500, calls := 1, log := ["Chat API Error: " ++ e] }
  | ProviderOutcome.notOk st (Except.ok eb) =>
    { response := err500, calls := 1,
      log := ["Chat API Error: Google API error: " ++ googleDetail st eb] }
  | ProviderOutcome.okRes (Except.error e) =>
    { response := err500, calls := 1, log := ["Chat API Error: " ++ e] }
  | ProviderOutcome.okRes (Except.ok d) =>
    { response := { status := 200, body := ApiBody.ok (textOrFallback d) },
      calls := 1, log := [] }

/-- The route handler of src/app/api/chat/route.ts. Its first argument is
the result of `request.json()` (an `Except.error` carries the message of
the thrown parse exception), its second the outcome of the one provider
fetch. A body-parse exception lands in the catch block with no fetch
performed; validation failure (`!query || !subject`, line 7) returns 400
before the fetch; otherwise `handleProvider` embeds the rest of the try
block. `calls` counts how many times the fetch at line 41 ran. -/
def POST (req : Except String ChatBody) (p : ProviderOutcome) : RelayRun :=
  match req with
  | Except.error e =>
    { response := err500, calls := 0, log := ["Chat API Error: " ++ e] }
  | Except.ok b =>
    if truthy b.query = false ∨ truthy b.subject = false then
      { response := { status := 400, body := ApiBody.err "Query and subject are required" },
        calls := 0, log := [] }
    else
      handleProvider p

/-- Unfolding lemma for `POST` on a parsed body. -/
theorem POST_ok_eq (b : ChatBody) (p : ProviderOutcome) :
    POST (Except.ok b) p =
      if truthy b.query = false ∨ truthy b.subject = false then
        { response := { status := 400, body := ApiBody.err "Query and subject are required" },
          calls := 0, log := [] }
      else
        handleProvider p := rfl

/-- Unfolding lemma for `POST` on an unparseable body. -/
theorem POST_error_eq (e : String) (p : ProviderOutcome) :
    POST (Except.error e) p =
      { response := err500, calls := 0, log := ["Chat API Error: " ++ e] } := rfl

/-- A provider outcome the catch block of the route classifies as a
failure: everything except an ok response with a parseable JSON body. -/
def providerFailed : ProviderOutcome → Prop
  | ProviderOutcome.okRes (Except.ok _) => False
  | _ => True

instance : DecidablePred providerFailed := by
  intro p
  cases p with
  | thrown m => exact isTrue trivial
  | notOk st eb => exact isTrue trivial
  | okRes body =>
    cases body with
    | error e => exact isTrue trivial
    | ok d => exact isFalse id

/-- A provider response data value with one candidate whose first part has
the given text field: the smallest well-formed response shape. -/
def mkData (t : Option String) : GeminiData :=
  { candidates := some [{ content := some { parts := some [{ text := t }] } }] }

/-- JS whitespace check used by `String.prototype.trim`: the ECMAScript
WhiteSpace set (tab, vertical tab, form feed, space, no-break space,
zero-width no-break space, and the Unicode Space_Separator characters)
together with the LineTerminator set (line feed, carriage return, line
separator, paragraph separator). -/
def jsWhitespace (c : Char) : Bool :=
  c = ' ' ∨ c = '\t' ∨ c = '\n' ∨ c = '\r' ∨
  c = '\u000B' ∨ c = '\u000C' ∨ c = '\uFEFF' ∨
  c = '\u00A0' ∨ c = '\u1680' ∨
  (0x2000 ≤ c.toNat ∧ c.toNat ≤ 0x200A) ∨
  c = '\u2028' ∨ c = '\u2029' ∨
  c = '\u202F' ∨ c = '\u205F' ∨ c = '\u3000'

/-- Drop the leading JS whitespace of a character list. -/
def dropLeadingWs : List Char → List Char
  | [] => []
  | c :: cs => if jsWhitespace c then dropLeadingWs cs else c :: cs

/-- JS `String.prototype.trim` as called at FloatingChat.tsx lines 26 and
127: the string with leading and trailing whitespace removed. -/
def jsTrim (s : String) : String :=
  String.mk ((dropLeadingWs (dropLeadingWs s.data.reverse).reverse).reverse.reverse)

/-- State of the FloatingChat component: the five useState fields of
FloatingChat.tsx lines 6-10. -/
structure WidgetState where
  isOpen : Bool
  query : String
  subject : String
  response : String
  loading : Bool
deriving DecidableEq

/-- The initial widget state of FloatingChat.tsx lines 6-10. -/
def initialState : WidgetState :=
  { isOpen := false, query := "", subject := "", response := "", loading := false }

/-- The fixed user-facing error string of FloatingChat.tsx lines 45 and 48. -/
def errorMsg : String := "Sorry, I encountered an error. Please try again."

/-- The clearChat handler of FloatingChat.tsx lines 54-58: resets `query`,
`response` and `subject`; it does not touch `loading` or `isOpen`. -/
def clearChat (s : WidgetState) : WidgetState :=
  { s with query := "", response := "", subject := "" }

/-- Outcome of the widget fetch to the relay endpoint: the fetch or the
body parse threw, or a body of the endpoint's JSON shape was obtained. -/
inductive ClientOutcome where
  | thrown (msg : String)
  | got (data : ApiBody)

/-- The synchronous part of handleSubmit after its guard passed
(FloatingChat.tsx lines 28-29): set `loading` and clear `response`. -/
def handleSubmitStart (s : WidgetState) : WidgetState :=
  { s with loading := true, response := "" }

/-- The continuation of handleSubmit after the relay call resolved
(FloatingChat.tsx lines 40-51): on `data.success` set `response` to
`data.response`, otherwise (or when the fetch or parse threw) set it to
the fixed error string; then clear `loading`. -/
def handleSubmitFinish (s : WidgetState) (o : ClientOutcome) : WidgetState :=
  match o with
  | ClientOutcome.thrown _ => { s with response := errorMsg, loading := false }
  | ClientOutcome.got (ApiBody.ok r) => { s with response := r, loading := false }
  | ClientOutcome.got (ApiBody.err _) => { s with response := errorMsg, loading := false }

/-- The whole handleSubmit handler of FloatingChat.tsx lines 24-52, seen
as a function from the current state and the fetch outcome to the final
state and the number of requests issued to the relay endpoint. The guard
at line 26 (`!query.trim() || !subject`) returns early with the state
unchanged and no request. -/
def handleSubmit (s : WidgetState) (o : ClientOutcome) : WidgetState × Nat :=
  if jsTrim s.query = "" ∨ s.subject = "" then (s, 0)
  else (handleSubmitFinish (handleSubmitStart s) o, 1)

/-- Unfolding lemma for a guarded (rejected) submit. -/
theorem handleSubmit_eq (s : WidgetState) (o : ClientOutcome) :
    handleSubmit s o =
      if jsTrim s.query = "" ∨ s.subject = "" then (s, 0)
      else (handleSubmitFinish (handleSubmitStart s) o, 1) := rfl

/-- The spec's widget phases (spec section 4.2). -/
inductive Phase where
  | Idle
  | Pending
  | Answered
  | Failed
deriving DecidableEq

/-- The spec's phase abstraction over the component state: the code keeps
no phase field, so the phase is derived from `loading` (a call in flight
is Pending) and `response` (empty is Idle; the fixed error string is
Failed; any other displayed text is Answered). -/
def phase (s : WidgetState) : Phase :=
  if s.loading = true then Phase.Pending
  else if s.response = "" then Phase.Idle
  else if s.response = errorMsg then Phase.Failed
  else Phase.Answered

/-- A client outcome the widget treats as a failure: a thrown fetch or
parse, or a body whose `success` field is false. -/
def clientFailure : ClientOutcome → Prop
  | ClientOutcome.thrown _ => True
  | ClientOutcome.got (ApiBody.err _) => True
  | ClientOutcome.got (ApiBody.ok _) => False

instance : DecidablePred clientFailure := by
  intro o
  cases o with
  | thrown m => exact isTrue trivial
  | got data =>
    cases data with
    | ok r => exact isFalse id
    | err e => exact isTrue trivial

/-- A well-formed request body used by concrete witnesses. -/
def goodBody : ChatBody :=
  { query := some "What is inertia?", subject := some "Physics" }

/-- A widget state with a filled-in form, used by concrete witnesses. -/
def askState : WidgetState :=
  { isOpen := true, query := "What is inertia?", subject := "Physics",
    response := "", loading := false }

/-- A widget state whose question is whitespace only. -/
def wsState : WidgetState :=
  { isOpen := true, query := "   ", subject := "Physics",
    response := "", loading := false }

/-- A widget state currently displaying an answer. -/
def answeredState : WidgetState :=
  { isOpen := true, query := "What is inertia?", subject := "Physics",
    response := "Inertia resists changes in motion.", loading := false }

/-- C1 counterexample: the request body whose question is a single space
is empty after trimming, yet the route validates with plain JS truthiness
and no trim, so it passes validation, performs the outbound provider call
(calls = 1, not 0) and answers 200, not 400. -/
theorem post_whitespace_query_not_rejected :
    jsTrim " " = "" ∧
    (POST (Except.ok { query := some " ", subject := some "Mathematics" })
        (ProviderOutcome.okRes (Except.ok (mkData (some "An answer."))))).calls = 1 ∧
    (POST (Except.ok { query := some " ", subject := some "Mathematics" })
        (ProviderOutcome.okRes (Except.ok (mkData (some "An answer."))))).response.status = 200 := by
  refine ⟨by decide, rfl, rfl⟩

/-- C1 (amended): for every relay request whose question is missing or
literally empty, or whose subject is missing or empty — JS falsiness,
with no trimming applied — the route returns 400 with the validation
error body and performs no outbound provider call. -/
theorem post_invalid_input_400 (b : ChatBody) (p : ProviderOutcome)
    (h : truthy b.query = false ∨ truthy b.subject = false) :
    POST (Except.ok b) p =
      { response := { status := 400, body := ApiBody.err "Query and subject are required" },
        calls := 0, log := [] } := by
  rw [POST_ok_eq, if_pos h]

/-- C1 witness: the empty-string question is rejected with 400 and no call. -/
theorem post_invalid_input_400_witness :
    (truthy (some "" : Option String) = false ∨
      truthy (some "Physics" : Option String) = false) ∧
    POST (Except.ok { query := some "", subject := some "Physics" })
        (ProviderOutcome.thrown "never reached") =
      { response := { status := 400, body := ApiBody.err "Query and subject are required" },
        calls := 0, log := [] } :=
  ⟨Or.inl (by decide),
   post_invalid_input_400 { query := some "", subject := some "Physics" }
     (ProviderOutcome.thrown "never reached") (Or.inl (by decide))⟩

/-- C2: for every well-formed request, whenever the provider call fails —
the fetch threw, the provider answered a non-ok status (with any
statusText and any error body), or the 200 body failed to parse — the
route responds with status 500 and the fixed generic body, a constant
that cannot contain the upstream detail; the detail reaches only the
server-side log, and exactly the one call was made. -/
theorem post_provider_error_500 (b : ChatBody) (p : ProviderOutcome)
    (hq : truthy b.query = true) (hs : truthy b.subject = true)
    (hf : providerFailed p) :
    (POST (Except.ok b) p).response =
      { status := 500, body := ApiBody.err "Failed to get response from AI assistant" } ∧
    (POST (Except.ok b) p).calls = 1 := by
  have hcond : ¬ (truthy b.query = false ∨ truthy b.subject = false) := by
    simp [hq, hs]
  rw [POST_ok_eq, if_neg hcond]
  cases p with
  | thrown m => exact ⟨rfl, rfl⟩
  | notOk st eb => cases eb with
    | error e => exact ⟨rfl, rfl⟩
    | ok ebody => exact ⟨rfl, rfl⟩
  | okRes body => cases body with
    | error e => exact ⟨rfl, rfl⟩
    | ok d => exact absurd hf id

/-- C2 witness: a non-ok provider status carrying an upstream detail
string yields the generic 500 body and one call. -/
theorem post_provider_error_500_witness :
    truthy goodBody.query = true ∧ truthy goodBody.subject = true ∧
    providerFailed (ProviderOutcome.notOk "Forbidden"
      (Except.ok { error := some { message := some "API key not valid" } })) ∧
    (POST (Except.ok goodBody) (ProviderOutcome.notOk "Forbidden"
        (Except.ok { error := some { message := some "API key not valid" } }))).response =
      { status := 500, body := ApiBody.err "Failed to get response from AI assistant" } ∧
    (POST (Except.ok goodBody) (ProviderOutcome.notOk "Forbidden"
        (Except.ok { error := some { message := some "API key not valid" } }))).calls = 1 := by
  refine ⟨by decide, by decide, trivial, ?_⟩
  exact post_provider_error_500 goodBody
    (ProviderOutcome.notOk "Forbidden"
      (Except.ok { error := some { message := some "API key not valid" } }))
    (by decide) (by decide) trivial

/-- C3 counterexample: with a present but empty first-candidate text the
route does not answer that exact (empty) text: the falsy-fallback of
line 56 replaces it, so the 200 body carries the fallback string. -/
theorem post_empty_text_not_exact :
    extractText (mkData (some "")) = some "" ∧
    (POST (Except.ok goodBody)
        (ProviderOutcome.okRes (Except.ok (mkData (some ""))))).response.body ≠
      ApiBody.ok "" ∧
    (POST (Except.ok goodBody)
        (ProviderOutcome.okRes (Except.ok (mkData (some ""))))).response.body =
      ApiBody.ok "No response received" := by
  refine ⟨rfl, by decide, rfl⟩

/-- C3 (amended): if the provider responds ok and the first candidate
text is present and non-empty, the route answers 200 with exactly that
text, untransformed. -/
theorem post_success_exact_text (b : ChatBody) (d : GeminiData) (t : String)
    (hq : truthy b.query = true) (hs : truthy b.subject = true)
    (ht : extractText d = some t) (hne : t ≠ "") :
    (POST (Except.ok b) (ProviderOutcome.okRes (Except.ok d))).response =
      { status := 200, body := ApiBody.ok t } := by
  have hcond : ¬ (truthy b.query = false ∨ truthy b.subject = false) := by
    simp [hq, hs]
  rw [POST_ok_eq, if_neg hcond]
  simp [handleProvider, textOrFallback, ht, hne]

/-- C3 witness: a concrete non-empty candidate text is relayed verbatim. -/
theorem post_success_exact_text_witness :
    truthy goodBody.query = true ∧ truthy goodBody.subject = true ∧
    extractText (mkData (some "Inertia resists changes in motion.")) =
      some "Inertia resists changes in motion." ∧
    "Inertia resists changes in motion." ≠ "" ∧
    (POST (Except.ok goodBody)
        (ProviderOutcome.okRes (Except.ok (mkData (some "Inertia resists changes in motion."))))).response =
      { status := 200, body := ApiBody.ok "Inertia resists changes in motion." } :=
  ⟨by decide, by decide, rfl, by decide,
   post_success_exact_text goodBody (mkData (some "Inertia resists changes in motion."))
     "Inertia resists changes in motion." (by decide) (by decide) rfl (by decide)⟩

/-- C4: if the provider responds ok but the optional chain finds no text
(any missing link: candidates, first candidate, content, parts, first
part, or text), the route answers 200 — a success, not a failure — with
the fallback string. -/
theorem post_missing_text_fallback (b : ChatBody) (d : GeminiData)
    (hq : truthy b.query = true) (hs : truthy b.subject = true)
    (hn : extractText d = none) :
    (POST (Except.ok b) (ProviderOutcome.okRes (Except.ok d))).response =
      { status := 200, body := ApiBody.ok "No response received" } := by
  have hcond : ¬ (truthy b.query = false ∨ truthy b.subject = false) := by
    simp [hq, hs]
  rw [POST_ok_eq, if_neg hcond]
  simp [handleProvider, textOrFallback, hn]

/-- C4 witness: a response with no candidates at all yields the fallback
as a 200 success. -/
theorem post_missing_text_fallback_witness :
    truthy goodBody.query = true ∧ truthy goodBody.subject = true ∧
    extractText { candidates := none } = none ∧
    (POST (Except.ok goodBody)
        (ProviderOutcome.okRes (Except.ok { candidates := none }))).response =
      { status := 200, body := ApiBody.ok "No response received" } :=
  ⟨by decide, by decide, rfl,
   post_missing_text_fallback goodBody { candidates := none }
     (by decide) (by decide) rfl⟩

/-- C5: for every well-formed request (truthy query and subject), exactly
one outbound provider call is made, whatever the provider outcome: no
retries and no duplicates on either the success or the failure path. -/
theorem post_exactly_one_call (b : ChatBody) (p : ProviderOutcome)
    (hq : truthy b.query = true) (hs : truthy b.subject = true) :
    (POST (Except.ok b) p).calls = 1 := by
  have hcond : ¬ (truthy b.query = false ∨ truthy b.subject = false) := by
    simp [hq, hs]
  rw [POST_ok_eq, if_neg hcond]
  cases p with
  | thrown m => rfl
  | notOk st eb => cases eb with
    | error e => rfl
    | ok ebody => rfl
  | okRes body => cases body with
    | error e => rfl
    | ok d => rfl

/-- C5 witness: a concrete well-formed request with a thrown fetch still
makes exactly one call. -/
theorem post_exactly_one_call_witness :
    truthy goodBody.query = true ∧ truthy goodBody.subject = true ∧
    (POST (Except.ok goodBody) (ProviderOutcome.thrown "ECONNRESET")).calls = 1 :=
  ⟨by decide, by decide,
   post_exactly_one_call goodBody (ProviderOutcome.thrown "ECONNRESET")
     (by decide) (by decide)⟩

/-- C6: when the question is empty after trimming or no subject is
selected, the submit handler returns before any state update: the state
is unchanged (in particular no transition to Pending) and no request is
issued to the relay endpoint. -/
theorem widget_submit_noop (s : WidgetState) (o : ClientOutcome)
    (h : jsTrim s.query = "" ∨ s.subject = "") :
    handleSubmit s o = (s, 0) := by
  rw [handleSubmit_eq, if_pos h]

/-- C6 witness: a whitespace-only question with a selected subject is a
no-op submit. -/
theorem widget_submit_noop_witness :
    (jsTrim wsState.query = "" ∨ wsState.subject = "") ∧
    handleSubmit wsState (ClientOutcome.got (ApiBody.ok "unused")) = (wsState, 0) :=
  ⟨Or.inl (by decide),
   widget_submit_noop wsState (ClientOutcome.got (ApiBody.ok "unused"))
     (Or.inl (by decide))⟩

/-- C7 counterexample: clearChat invoked from the Pending state (a call
in flight) leaves `loading` set — it resets only `query`, `response` and
`subject` — so the phase after clear is Pending, not Idle, refuting the
claim for that state. -/
theorem widget_clear_pending_not_idle :
    (clearChat (handleSubmitStart askState)).loading = true ∧
    phase (clearChat (handleSubmitStart askState)) = Phase.Pending ∧
    Phase.Pending ≠ Phase.Idle := by
  refine ⟨rfl, rfl, by decide⟩

/-- C7 (amended): after clearChat the subject, question and displayed
result are all empty; the loading flag is carried over unchanged, so the
phase is Idle exactly when no call was in flight — from the Pending state
the phase stays Pending. -/
theorem widget_clear_resets_fields (s : WidgetState) :
    (clearChat s).query = "" ∧ (clearChat s).subject = "" ∧
    (clearChat s).response = "" ∧ (clearChat s).loading = s.loading ∧
    (s.loading = false → phase (clearChat s) = Phase.Idle) := by
  refine ⟨rfl, rfl, rfl, rfl, fun h => ?_⟩
  simp [phase, clearChat, h]

/-- C7 witness: clearing a concrete Answered state empties the fields and
lands in Idle. -/
theorem widget_clear_resets_fields_witness :
    (clearChat answeredState).query = "" ∧
    phase (clearChat answeredState) = Phase.Idle := by
  have h := widget_clear_resets_fields answeredState
  exact ⟨h.1, h.2.2.2.2 rfl⟩

/-- C8: whenever a submitted call resolves with any failure — a body with
success false (of either error text) or a thrown fetch or parse — the
final widget state displays the single fixed error string, is no longer
loading, and its phase is Failed; handleSubmit is a total function on
every outcome, so no exception escapes the widget. -/
theorem widget_failure_fixed_message (s : WidgetState) (o : ClientOutcome)
    (hg : ¬ (jsTrim s.query = "" ∨ s.subject = ""))
    (hf : clientFailure o) :
    (handleSubmit s o).1.response = errorMsg ∧
    (handleSubmit s o).1.loading = false ∧
    phase (handleSubmit s o).1 = Phase.Failed := by
  rw [handleSubmit_eq, if_neg hg]
  cases o with
  | thrown m =>
    refine ⟨rfl, rfl, ?_⟩
    simp [phase, handleSubmitFinish, handleSubmitStart, errorMsg]
  | got data =>
    cases data with
    | ok r => exact absurd hf id
    | err e =>
      refine ⟨rfl, rfl, ?_⟩
      simp [phase, handleSubmitFinish, handleSubmitStart, errorMsg]

/-- C8 witness: a 500 error body from the endpoint ends in Failed with
the fixed message. -/
theorem widget_failure_fixed_message_witness :
    ¬ (jsTrim askState.query = "" ∨ askState.subject = "") ∧
    clientFailure (ClientOutcome.got (ApiBody.err "Failed to get response from AI assistant")) ∧
    (handleSubmit askState
      (ClientOutcome.got (ApiBody.err "Failed to get response from AI assistant"))).1.response =
      errorMsg ∧
    phase (handleSubmit askState
      (ClientOutcome.got (ApiBody.err "Failed to get response from AI assistant"))).1 =
      Phase.Failed := by
  have h := widget_failure_fixed_message askState
    (ClientOutcome.got (ApiBody.err "Failed to get response from AI assistant"))
    (by decide) trivial
  exact ⟨by decide, trivial, h.1, h.2.2⟩

/-- C9: when the first candidate text is present but equal to the empty
string — a falsy value in JS, though structurally present — the route
answers the fallback string, not the empty string: the fallback of
line 56 triggers on any falsy extracted value. -/
theorem post_empty_text_fallback (b : ChatBody) (d : GeminiData)
    (hq : truthy b.query = true) (hs : truthy b.subject = true)
    (he : extractText d = some "") :
    (POST (Except.ok b) (ProviderOutcome.okRes (Except.ok d))).response =
      { status := 200, body := ApiBody.ok "No response received" } := by
  have hcond : ¬ (truthy b.query = false ∨ truthy b.subject = false) := by
    simp [hq, hs]
  rw [POST_ok_eq, if_neg hcond]
  simp [handleProvider, textOrFallback, he]

/-- C9 witness: the concrete empty-text response yields the fallback. -/
theorem post_empty_text_fallback_witness :
    truthy goodBody.query = true ∧ truthy goodBody.subject = true ∧
    extractText (mkData (some "")) = some "" ∧
    (POST (Except.ok goodBody)
        (ProviderOutcome.okRes (Except.ok (mkData (some ""))))).response =
      { status := 200, body := ApiBody.ok "No response received" } :=
  ⟨by decide, by decide, rfl,
   post_empty_text_fallback goodBody (mkData (some "")) (by decide) (by decide) rfl⟩

/-- C10: a request body that fails to parse as JSON throws inside the
try block before validation, so the catch-all answers the generic 500
provider-error body — not the 400 validation shape — and no outbound
call is made. -/
theorem post_unparseable_body_500 (e : String) (p : ProviderOutcome) :
    POST (Except.error e) p =
      { response := { status := 500, body := ApiBody.err "Failed to get response from AI assistant" },
        calls := 0, log := ["Chat API Error: " ++ e] } := by
  rw [POST_error_eq]
  rfl
